import Mathlib

/-!
Verification of the room-booking service core: the interval overlap
checker, the booking conflict resolver, the review moderation state
machine, the registration endpoint and the circuit-breaker-guarded
booking write path.  Each operation below is a shallow embedding of the
corresponding Python handler; timestamps are modelled as integers
(datetimes form a linear order and the handlers only compare them),
and the database session is modelled as explicit record state.
-/

namespace RoomBooking

/-- An HTTP error as raised by `HTTPException(status_code, detail)`. -/
structure HTTPError where
  status : Nat
  detail : String
deriving DecidableEq, Repr

/-- `models.User` (app/models.py). -/
structure User where
  id : Nat
  name : String
  username : String
  email : String
  hashed_password : String
  role : String
deriving DecidableEq, Repr

/-- `models.Room` (app/models.py). -/
structure Room where
  id : Nat
  name : String
  capacity : Nat
  equipment : Option String
  location : String
  is_available : Bool
deriving DecidableEq, Repr

/-- `models.Booking` (app/models.py). -/
structure Booking where
  id : Nat
  user_id : Nat
  room_id : Nat
  start_time : Int
  end_time : Int
deriving DecidableEq, Repr

/-- `models.Review` (app/models.py). -/
structure Review where
  id : Nat
  user_id : Nat
  room_id : Nat
  rating : Int
  comment : Option String
  flagged : Bool
  deleted : Bool
deriving DecidableEq, Repr

/-- The database session's visible state: one table per model. -/
structure DB where
  users : List User
  rooms : List Room
  bookings : List Booking
  reviews : List Review
deriving DecidableEq, Repr

/-- `schemas.BookingCreate` (app/schemas.py). -/
structure BookingCreate where
  room_id : Nat
  start_time : Int
  end_time : Int
deriving DecidableEq, Repr

/-- `schemas.ReviewUpdate` (app/schemas.py): both fields optional; an
outer `none` means the field was not sent (`exclude_unset`). -/
structure ReviewUpdate where
  rating : Option Int
  comment : Option (Option String)
deriving DecidableEq, Repr

/-- `schemas.UserCreate` (app/schemas.py). -/
structure UserCreate where
  name : String
  username : String
  email : String
  role : String
  password : String
deriving DecidableEq, Repr

/-- `overlaps` (app/routers/bookings.py, lines 15-21):
`return start1 < end2 and start2 < end1`. -/
def overlaps (start1 end1 start2 end2 : Int) : Bool :=
  decide (start1 < end2) && decide (start2 < end1)

/-- `db.query(Room).filter(Room.id == rid).first()`. -/
def findRoom (db : DB) (rid : Nat) : Option Room :=
  db.rooms.find? (fun r => r.id == rid)

/-- `db.query(Booking).filter(Booking.id == bid).first()`. -/
def findBooking (db : DB) (bid : Nat) : Option Booking :=
  db.bookings.find? (fun b => b.id == bid)

/-- `db.query(Review).filter(Review.id == rid).first()`. -/
def findReview (db : DB) (rid : Nat) : Option Review :=
  db.reviews.find? (fun r => r.id == rid)

/-- Mutating the single ORM object returned by `.first()` and
committing: rewrite the first list element satisfying `p`. -/
def updateFirst (p : α → Bool) (f : α → α) : List α → List α
  | [] => []
  | x :: xs => if p x then f x :: xs else x :: updateFirst p f xs

theorem find?_updateFirst (p : α → Bool) (f : α → α) (l : List α)
    (hf : ∀ a, p (f a) = p a) :
    (updateFirst p f l).find? p = (l.find? p).map f := by
  induction l with
  | nil => rfl
  | cons x xs ih =>
    by_cases hx : p x
    · simp [updateFirst, hx, List.find?_cons, hf]
    · simp [updateFirst, hx, List.find?_cons, ih]

/- Error constants, one per `raise HTTPException` site in the routers. -/

/-- `bookings.py:39`, `reviews.py:19`. -/
def roomNotFound : HTTPError := ⟨404, "Room not found"⟩

/-- `bookings.py:199`. -/
def bookingNotFound : HTTPError := ⟨404, "Booking not found"⟩

/-- `reviews.py:52`. -/
def reviewNotFound : HTTPError := ⟨404, "Review not found"⟩

/-- `bookings.py:214` (scheduling-overlap denial). -/
def bookingConflict : HTTPError := ⟨400, "Room already booked for that time range"⟩

/-- `bookings.py:203`. -/
def updateBookingForbidden : HTTPError := ⟨403, "Not allowed to update this booking"⟩

/-- `reviews.py:55` (update of a deleted review). -/
def deletedReviewBadRequest : HTTPError := ⟨400, "Cannot update a deleted review"⟩

/-- `reviews.py:59`. -/
def updateReviewForbidden : HTTPError := ⟨403, "Not allowed to update this review"⟩

/-- `deps.py:95`, raised by `require_roles` role checks. -/
def notEnoughPermissions : HTTPError := ⟨403, "Not enough permissions"⟩

/-- `users.py:45`. -/
def userAlreadyExists : HTTPError := ⟨400, "Username or email already exists"⟩

/-- `bookings.py:171-174`, raised when the breaker rejects the call. -/
def circuitOpenUnavailable : HTTPError :=
  ⟨503, "Booking service temporarily unavailable (circuit open). Please try again later."⟩

/-- `bookings.py:177-180`, the simulated downstream failure surfaced
while the breaker lets the call through. -/
def downstreamFailure : HTTPError :=
  ⟨500, "Downstream failure in booking service: Simulated downstream failure for circuit breaker demo"⟩

end RoomBooking

namespace RoomBooking

/-- `fail_max=3` from `CircuitBreaker(...)` in app/circuit_breaker.py. -/
def fail_max : Nat := 3

/-- `reset_timeout=60` from `CircuitBreaker(...)` in app/circuit_breaker.py. -/
def reset_timeout : Nat := 60

/-- Modelled from the spec: the `pybreaker.CircuitBreaker` state, whose
implementation is an external library not present in the repository.
Per spec section 4.5 the breaker is Closed with a consecutive-failure
counter, or Open with the time it opened; HalfOpen is the transient
trial of the first call arriving after the reset timeout has elapsed. -/
inductive BreakerState where
  | closed (failCount : Nat)
  | opened (openedAt : Nat)
deriving DecidableEq, Repr

/-- `check_room_availability` (bookings.py, lines 24-61): 404 when the
room is absent, otherwise scans the room's bookings for an overlap. -/
def check_room_availability (db : DB) (room_id : Nat) (start_time end_time : Int) :
    Except HTTPError Bool :=
  match findRoom db room_id with
  | none => .error roomNotFound
  | some _ =>
    let existing := db.bookings.filter (fun b => b.room_id == room_id)
    if existing.any (fun b => overlaps start_time end_time b.start_time b.end_time) then
      .ok false
    else
      .ok true

/-- `create_booking` (bookings.py, lines 120-180), the active revision:
it builds the booking from the request and the current user and submits
the commit through the circuit breaker; it performs no room lookup and
no overlap scan.  The breaker dynamics are modelled from the spec
(section 4.5), since `pybreaker` itself is an external library: while
Closed the call passes through, a downstream failure incrementing the
consecutive-failure counter and tripping to Open at `fail_max`; while
Open and within `reset_timeout` seconds the call is rejected without
invoking the downstream write (503); once the timeout has elapsed one
trial call passes through, success closing the breaker and failure
reopening it.  A downstream failure that was let through surfaces as
the 500 `RuntimeError` branch of the handler. -/
def create_booking (db : DB) (current_user : User) (booking_in : BookingCreate)
    (force_fail : Bool) (breaker : BreakerState) (now : Nat) (nextId : Nat) :
    Except HTTPError Booking × DB × BreakerState :=
  let booking : Booking :=
    { id := nextId
      user_id := current_user.id
      room_id := booking_in.room_id
      start_time := booking_in.start_time
      end_time := booking_in.end_time }
  match breaker with
  | .opened openedAt =>
    if now < openedAt + reset_timeout then
      (.error circuitOpenUnavailable, db, .opened openedAt)
    else
      if force_fail then
        (.error downstreamFailure, db, .opened now)
      else
        (.ok booking, { db with bookings := db.bookings ++ [booking] }, .closed 0)
  | .closed failCount =>
    if force_fail then
      (.error downstreamFailure, db,
        if fail_max ≤ failCount + 1 then .opened now else .closed (failCount + 1))
    else
      (.ok booking, { db with bookings := db.bookings ++ [booking] }, .closed 0)

/-- The field rewrite `booking.room_id = ...; booking.start_time = ...;
booking.end_time = ...` of `update_booking`. -/
def applyBookingUpdate (booking_update : BookingCreate) (b : Booking) : Booking :=
  { b with
      room_id := booking_update.room_id
      start_time := booking_update.start_time
      end_time := booking_update.end_time }

/-- `update_booking` (bookings.py, lines 183-222): 404 when the booking
is absent; 403 unless the actor owns it or is admin; for non-admins a
400 conflict when any other booking of the target room overlaps the new
interval; otherwise the new room and interval are persisted. -/
def update_booking (db : DB) (booking_id : Nat) (booking_update : BookingCreate)
    (current_user : User) : Except HTTPError Booking × DB :=
  match findBooking db booking_id with
  | none => (.error bookingNotFound, db)
  | some booking =>
    if booking.user_id != current_user.id && current_user.role != "admin" then
      (.error updateBookingForbidden, db)
    else
      let existing := db.bookings.filter
        (fun b => b.room_id == booking_update.room_id && b.id != booking_id)
      if current_user.role != "admin" &&
          existing.any (fun b =>
            overlaps booking_update.start_time booking_update.end_time b.start_time b.end_time) then
        (.error bookingConflict, db)
      else
        let bookings := updateFirst (fun b => b.id == booking_id)
          (applyBookingUpdate booking_update) db.bookings
        (.ok (applyBookingUpdate booking_update booking), { db with bookings := bookings })

/-- The `setattr` loop of `update_review` over the fields present in
the request (`exclude_unset`). -/
def applyReviewUpdate (review_update : ReviewUpdate) (r : Review) : Review :=
  let r1 := match review_update.rating with
    | none => r
    | some v => { r with rating := v }
  match review_update.comment with
  | none => r1
  | some c => { r1 with comment := c }

/-- `update_review` (reviews.py, lines 43-66): 404 when absent, 400 when
the review is soft-deleted, 403 unless author or admin, otherwise the
supplied fields are applied and persisted. -/
def update_review (db : DB) (review_id : Nat) (review_update : ReviewUpdate)
    (current_user : User) : Except HTTPError Review × DB :=
  match findReview db review_id with
  | none => (.error reviewNotFound, db)
  | some review =>
    if review.deleted then
      (.error deletedReviewBadRequest, db)
    else if review.user_id != current_user.id && current_user.role != "admin" then
      (.error updateReviewForbidden, db)
    else
      let reviews := updateFirst (fun r => r.id == review_id)
        (applyReviewUpdate review_update) db.reviews
      (.ok (applyReviewUpdate review_update review), { db with reviews := reviews })

/-- `restore_review` (reviews.py, lines 91-106): the `require_roles
("admin")` dependency rejects every non-admin actor before the handler
runs; for an admin, 404 when the review is absent, otherwise
`deleted` is cleared and committed. -/
def restore_review (db : DB) (review_id : Nat) (current_user : User) :
    Except HTTPError String × DB :=
  if current_user.role != "admin" then
    (.error notEnoughPermissions, db)
  else
    match findReview db review_id with
    | none => (.error reviewNotFound, db)
    | some _ =>
      let reviews := updateFirst (fun r => r.id == review_id)
        (fun r => { r with deleted := false }) db.reviews
      (.ok "Review restored", { db with reviews := reviews })

/-- `register_user` (users.py, lines 20-57): 400 when the username or
email is taken, otherwise a user with exactly the requested role is
created; the endpoint has no authentication dependency, so `hash`
stands for the external `get_password_hash`. -/
def register_user (db : DB) (user_in : UserCreate) (hash : String → String)
    (nextId : Nat) : Except HTTPError User × DB :=
  match db.users.find?
      (fun u => u.username == user_in.username || u.email == user_in.email) with
  | some _ => (.error userAlreadyExists, db)
  | none =>
    let user : User :=
      { id := nextId
        name := user_in.name
        username := user_in.username
        email := user_in.email
        hashed_password := hash user_in.password
        role := user_in.role }
    (.ok user, { db with users := db.users ++ [user] })

end RoomBooking

namespace RoomBooking

/- Concrete fixtures used by the witnesses and counterexamples. -/

/-- An admin actor. -/
def adminUser : User := ⟨1, "Admin", "admin", "admin@example.com", "h1", "admin"⟩

/-- A regular actor. -/
def regUser : User := ⟨2, "Reg", "reg", "reg@example.com", "h2", "regular"⟩

/-- A second regular actor, distinct from `regUser`. -/
def otherUser : User := ⟨3, "Other", "other", "other@example.com", "h3", "regular"⟩

/-- A room that exists and is administratively available. -/
def room1 : Room := ⟨1, "Room A", 10, none, "HQ", true⟩

/-- A booking of `room1` for `[0, 60)` owned by `regUser`. -/
def booking1 : Booking := ⟨1, 2, 1, 0, 60⟩

/-- A second booking of `room1`, `[100, 160)`, owned by `regUser`. -/
def booking2 : Booking := ⟨2, 2, 1, 100, 160⟩

/-- State with one existing booking on `room1`. -/
def dbOverlap : DB := ⟨[adminUser, regUser, otherUser], [room1], [booking1], []⟩

/-- State with no rooms at all. -/
def dbNoRooms : DB := ⟨[regUser], [], [], []⟩

/-- State with two disjoint bookings on `room1`, both owned by `regUser`. -/
def dbTwoBookings : DB := ⟨[adminUser, regUser, otherUser], [room1], [booking1, booking2], []⟩

/-- A soft-deleted review of `room1` authored by `regUser`. -/
def deletedReview : Review := ⟨1, 2, 1, 5, some "nice", false, true⟩

/-- State holding only the soft-deleted review. -/
def dbDeletedReview : DB := ⟨[adminUser, regUser, otherUser], [room1], [], [deletedReview]⟩

/-- Claim C6: `overlaps` is true iff `start1 < end2` and `start2 < end1`
(half-open semantics); hence it is symmetric and adjacent intervals
(one interval's end equal to the other's start) never overlap. -/
theorem overlaps_halfopen_spec :
    (∀ start1 end1 start2 end2 : Int,
      overlaps start1 end1 start2 end2 = true ↔ (start1 < end2 ∧ start2 < end1)) ∧
    (∀ start1 end1 start2 end2 : Int,
      overlaps start1 end1 start2 end2 = overlaps start2 end2 start1 end1) ∧
    (∀ a b c : Int, overlaps a b b c = false) ∧
    (∀ a b c : Int, overlaps b c a b = false) := by
  refine ⟨fun s1 e1 s2 e2 => ?_, fun s1 e1 s2 e2 => ?_, fun a b c => ?_, fun a b c => ?_⟩
  · simp [overlaps]
  · simp only [overlaps]
    exact Bool.and_comm _ _
  · simp [overlaps]
  · simp [overlaps]

/-- Claim C1 (code bug): a non-admin creating a booking whose interval
overlaps an existing booking of the same room is NOT rejected by the
active `create_booking`: the overlapping booking is persisted and
returned.  The overlap scan only survives in a commented-out revision
of the handler, and the repository's own test
`test_create_overlapping_booking_regular_user` expects the 400. -/
theorem create_booking_persists_overlap :
    otherUser.role ≠ "admin" ∧
    (∃ b ∈ dbOverlap.bookings, b.room_id = 1 ∧ overlaps 0 60 b.start_time b.end_time = true) ∧
    create_booking dbOverlap otherUser ⟨1, 0, 60⟩ false (.closed 0) 0 2 =
      (.ok ⟨2, 3, 1, 0, 60⟩,
       { dbOverlap with bookings := dbOverlap.bookings ++ [⟨2, 3, 1, 0, 60⟩] },
       .closed 0) := by
  refine ⟨by decide, ⟨booking1, by decide, by decide, by decide⟩, rfl⟩

/-- Claim C2 (code bug): the active `create_booking` never looks the
room up, so a request naming a nonexistent room id succeeds and the
dangling booking is persisted; the repository's own test
`test_create_booking_nonexistent_room` expects a 404 here. -/
theorem create_booking_persists_missing_room :
    findRoom dbNoRooms 99 = none ∧
    create_booking dbNoRooms regUser ⟨99, 0, 60⟩ false (.closed 0) 0 1 =
      (.ok ⟨1, 2, 99, 0, 60⟩,
       { dbNoRooms with bookings := [⟨1, 2, 99, 0, 60⟩] },
       .closed 0) := by
  exact ⟨rfl, rfl⟩

/-- Claim C3, counterexample: a scheduling-overlap denial and a
BadRequest (updating a deleted review) carry the SAME status signal,
400, so the two kinds are not distinguishable by their stable signal. -/
theorem conflict_and_badrequest_share_status :
    (update_booking dbTwoBookings 2 ⟨1, 0, 60⟩ regUser).1 = .error bookingConflict ∧
    (update_review dbDeletedReview 1 ⟨some 4, none⟩ adminUser).1 = .error deletedReviewBadRequest ∧
    bookingConflict.status = deletedReviewBadRequest.status := by
  refine ⟨rfl, rfl, rfl⟩

/-- Claim C3, amended: Conflict (400) is distinguishable by status code
from Forbidden (403), ServiceUnavailable (503) and InternalFailure
(500), but it shares status 400 with BadRequest; those two differ only
in their free-text detail strings. -/
theorem error_signals_partially_distinct :
    bookingConflict.status = 400 ∧ deletedReviewBadRequest.status = 400 ∧
    updateBookingForbidden.status = 403 ∧ notEnoughPermissions.status = 403 ∧
    circuitOpenUnavailable.status = 503 ∧ downstreamFailure.status = 500 ∧
    bookingConflict.status ≠ updateBookingForbidden.status ∧
    bookingConflict.status ≠ circuitOpenUnavailable.status ∧
    bookingConflict.status ≠ downstreamFailure.status ∧
    bookingConflict.status = deletedReviewBadRequest.status ∧
    bookingConflict.detail ≠ deletedReviewBadRequest.detail := by
  decide

/-- Claim C4: `update_booking` fails with NotFound when the booking id
is absent; otherwise with Forbidden when the actor is neither the owner
nor an admin; otherwise, for a non-admin actor, with Conflict exactly
when some other booking (same target room, different id) overlaps the
new interval; otherwise the new room and interval are persisted. -/
theorem update_booking_resolver_spec (db : DB) (booking_id : Nat)
    (upd : BookingCreate) (u : User) :
    (findBooking db booking_id = none →
      update_booking db booking_id upd u = (.error bookingNotFound, db)) ∧
    (∀ bk, findBooking db booking_id = some bk →
      ((bk.user_id ≠ u.id ∧ u.role ≠ "admin") →
        update_booking db booking_id upd u = (.error updateBookingForbidden, db)) ∧
      ((bk.user_id = u.id ∨ u.role = "admin") →
        ((u.role ≠ "admin" ∧ ∃ b ∈ db.bookings, b.room_id = upd.room_id ∧ b.id ≠ booking_id ∧
            overlaps upd.start_time upd.end_time b.start_time b.end_time = true) →
          update_booking db booking_id upd u = (.error bookingConflict, db)) ∧
        ((u.role = "admin" ∨ ∀ b ∈ db.bookings, b.room_id = upd.room_id → b.id ≠ booking_id →
            overlaps upd.start_time upd.end_time b.start_time b.end_time = false) →
          update_booking db booking_id upd u =
            (.ok (applyBookingUpdate upd bk),
             { db with bookings := updateFirst (fun b => b.id == booking_id) (applyBookingUpdate upd) db.bookings })))) := by
  have c1iff : (bk : Booking) →
      ((bk.user_id != u.id && u.role != "admin") = true ↔
        (bk.user_id ≠ u.id ∧ u.role ≠ "admin")) := by
    intro bk
    simp [Bool.and_eq_true]
  have c2iff :
      ((u.role != "admin" &&
          (db.bookings.filter
            (fun b => b.room_id == upd.room_id && b.id != booking_id)).any
            (fun b => overlaps upd.start_time upd.end_time b.start_time b.end_time)) = true ↔
        (u.role ≠ "admin" ∧ ∃ b ∈ db.bookings, b.room_id = upd.room_id ∧ b.id ≠ booking_id ∧
          overlaps upd.start_time upd.end_time b.start_time b.end_time = true)) := by
    simp only [Bool.and_eq_true, bne_iff_ne, List.any_eq_true, List.mem_filter, beq_iff_eq]
    constructor
    · rintro ⟨hr, b, ⟨hb, hroom, hid⟩, hov⟩
      exact ⟨hr, b, hb, hroom, hid, hov⟩
    · rintro ⟨hr, b, hb, hroom, hid, hov⟩
      exact ⟨hr, b, ⟨hb, hroom, hid⟩, hov⟩
  constructor
  · intro h
    simp [update_booking, h]
  · intro bk hbk
    by_cases hc1 : (bk.user_id != u.id && u.role != "admin") = true
    · have heq : update_booking db booking_id upd u = (.error updateBookingForbidden, db) := by
        simp [update_booking, hbk, hc1]
      refine ⟨fun _ => heq, fun hown => absurd hown ?_⟩
      rcases (c1iff bk).mp hc1 with ⟨hne, hrole⟩
      rintro (h | h)
      · exact hne h
      · exact hrole h
    · have hc1f : (bk.user_id != u.id && u.role != "admin") = false :=
        Bool.not_eq_true _ ▸ eq_false_of_ne_true hc1
      refine ⟨fun h => absurd ((c1iff bk).mpr h) hc1, fun _ => ?_⟩
      by_cases hc2 : (u.role != "admin" &&
          (db.bookings.filter
            (fun b => b.room_id == upd.room_id && b.id != booking_id)).any
            (fun b => overlaps upd.start_time upd.end_time b.start_time b.end_time)) = true
      · have heq : update_booking db booking_id upd u = (.error bookingConflict, db) := by
          simp only [update_booking, hbk]
          rw [if_neg (by simp [hc1f]), if_pos hc2]
        refine ⟨fun _ => heq, fun hno => absurd hno ?_⟩
        rcases c2iff.mp hc2 with ⟨hr, b, hb, hroom, hid, hov⟩
        rintro (h | h)
        · exact hr h
        · exact absurd hov (by simp [h b hb hroom hid])
      · have heq : update_booking db booking_id upd u =
            (.ok (applyBookingUpdate upd bk),
             { db with bookings := updateFirst (fun b => b.id == booking_id) (applyBookingUpdate upd) db.bookings }) := by
          simp only [update_booking, hbk]
          rw [if_neg (by simp [hc1f]), if_neg hc2]
        refine ⟨fun h => absurd (c2iff.mpr h) hc2, fun _ => heq⟩

/-- Witness: the four branches of `update_booking_resolver_spec`
exercised on concrete states. -/
theorem update_booking_resolver_spec_witness :
    update_booking dbTwoBookings 99 ⟨1, 0, 60⟩ regUser = (.error bookingNotFound, dbTwoBookings) ∧
    update_booking dbTwoBookings 1 ⟨1, 0, 60⟩ otherUser =
      (.error updateBookingForbidden, dbTwoBookings) ∧
    update_booking dbTwoBookings 2 ⟨1, 0, 60⟩ regUser = (.error bookingConflict, dbTwoBookings) ∧
    update_booking dbTwoBookings 2 ⟨1, 200, 260⟩ regUser =
      (.ok (applyBookingUpdate ⟨1, 200, 260⟩ booking2),
       { dbTwoBookings with bookings := updateFirst (fun b => b.id == 2) (applyBookingUpdate ⟨1, 200, 260⟩) dbTwoBookings.bookings }) := by
  refine ⟨(update_booking_resolver_spec dbTwoBookings 99 ⟨1, 0, 60⟩ regUser).1 (by decide),
    (((update_booking_resolver_spec dbTwoBookings 1 ⟨1, 0, 60⟩ otherUser).2 booking1
        (by decide)).1 ⟨by decide, by decide⟩),
    ((((update_booking_resolver_spec dbTwoBookings 2 ⟨1, 0, 60⟩ regUser).2 booking2
        (by decide)).2 (Or.inl (by decide))).1
      ⟨by decide, booking1, by decide, by decide, by decide, by decide⟩),
    ((((update_booking_resolver_spec dbTwoBookings 2 ⟨1, 200, 260⟩ regUser).2 booking2
        (by decide)).2 (Or.inl (by decide))).2 (Or.inr (by decide)))⟩

/-- Claim C5: the booking-create write path is guarded by a breaker
with trip threshold 3 and reset timeout 60 seconds: three consecutive
downstream failures leave it Open; every call while Open and within 60
seconds is answered ServiceUnavailable with the store untouched; once
60 seconds have elapsed one trial call passes through, success closing
the breaker and failure reopening it; and a downstream failure while
the breaker is not Open surfaces as InternalFailure (500). -/
theorem booking_breaker_spec (db : DB) (u : User) (bi : BookingCreate)
    (now nextId openedAt n t1 t2 t3 : Nat) :
    ((create_booking db u bi true (.closed 0) t1 nextId).2.2 = .closed 1 ∧
     (create_booking db u bi true (.closed 1) t2 nextId).2.2 = .closed 2 ∧
     (create_booking db u bi true (.closed 2) t3 nextId).2.2 = .opened t3) ∧
    (now < openedAt + reset_timeout →
      create_booking db u bi false (.opened openedAt) now nextId =
        (.error circuitOpenUnavailable, db, .opened openedAt) ∧
      create_booking db u bi true (.opened openedAt) now nextId =
        (.error circuitOpenUnavailable, db, .opened openedAt)) ∧
    (openedAt + reset_timeout ≤ now →
      create_booking db u bi false (.opened openedAt) now nextId =
        (.ok ⟨nextId, u.id, bi.room_id, bi.start_time, bi.end_time⟩,
         { db with bookings := db.bookings ++ [⟨nextId, u.id, bi.room_id, bi.start_time, bi.end_time⟩] },
         .closed 0) ∧
      create_booking db u bi true (.opened openedAt) now nextId =
        (.error downstreamFailure, db, .opened now)) ∧
    (n + 1 < fail_max →
      create_booking db u bi true (.closed n) now nextId =
        (.error downstreamFailure, db, .closed (n + 1))) ∧
    ((create_booking db u bi true (.closed 2) now nextId).1 = .error downstreamFailure) := by
  refine ⟨⟨?_, ?_, ?_⟩, fun h => ⟨?_, ?_⟩, fun h => ⟨?_, ?_⟩, fun h => ?_, ?_⟩
  · simp [create_booking, fail_max]
  · simp [create_booking, fail_max]
  · simp [create_booking, fail_max]
  · simp [create_booking, if_pos h]
  · simp [create_booking, if_pos h]
  · simp [create_booking, if_neg (Nat.not_lt.mpr h)]
  · simp [create_booking, if_neg (Nat.not_lt.mpr h)]
  · simp [create_booking, if_neg (Nat.not_le.mpr h)]
  · simp [create_booking, fail_max]

/-- Witness: the breaker clauses at concrete times (trip at calls 1-3,
fast-fail at 10 seconds after opening, trial at 60 and 75 seconds,
below-threshold failure from one prior failure). -/
theorem booking_breaker_spec_witness :
    ((create_booking dbNoRooms regUser ⟨1, 0, 60⟩ true (.closed 0) 1 5).2.2 = .closed 1 ∧
     (create_booking dbNoRooms regUser ⟨1, 0, 60⟩ true (.closed 1) 2 5).2.2 = .closed 2 ∧
     (create_booking dbNoRooms regUser ⟨1, 0, 60⟩ true (.closed 2) 3 5).2.2 = .opened 3) ∧
    (create_booking dbNoRooms regUser ⟨1, 0, 60⟩ false (.opened 3) 13 5 =
      (.error circuitOpenUnavailable, dbNoRooms, .opened 3)) ∧
    (create_booking dbNoRooms regUser ⟨1, 0, 60⟩ false (.opened 3) 63 5 =
      (.ok ⟨5, 2, 1, 0, 60⟩,
       { dbNoRooms with bookings := dbNoRooms.bookings ++ [⟨5, 2, 1, 0, 60⟩] },
       .closed 0)) ∧
    (create_booking dbNoRooms regUser ⟨1, 0, 60⟩ true (.opened 3) 75 5 =
      (.error downstreamFailure, dbNoRooms, .opened 75)) ∧
    (create_booking dbNoRooms regUser ⟨1, 0, 60⟩ true (.closed 1) 20 5 =
      (.error downstreamFailure, dbNoRooms, .closed 2)) := by
  refine ⟨(booking_breaker_spec dbNoRooms regUser ⟨1, 0, 60⟩ 0 5 0 0 1 2 3).1,
    ((booking_breaker_spec dbNoRooms regUser ⟨1, 0, 60⟩ 13 5 3 0 1 2 3).2.1 (by decide)).1,
    ((booking_breaker_spec dbNoRooms regUser ⟨1, 0, 60⟩ 63 5 3 0 1 2 3).2.2.1 (by decide)).1,
    ((booking_breaker_spec dbNoRooms regUser ⟨1, 0, 60⟩ 75 5 3 0 1 2 3).2.2.1 (by decide)).2,
    (booking_breaker_spec dbNoRooms regUser ⟨1, 0, 60⟩ 20 5 0 1 1 2 3).2.2.2.1 (by decide)⟩

/-- Claim C7: updating an existing review whose `deleted` flag is set
fails with BadRequest for every actor — the guard runs before the
ownership check — and the state is returned unchanged. -/
theorem update_review_deleted_guard (db : DB) (review_id : Nat)
    (ru : ReviewUpdate) (u : User) (r : Review)
    (hfind : findReview db review_id = some r) (hdel : r.deleted = true) :
    update_review db review_id ru u = (.error deletedReviewBadRequest, db) := by
  simp [update_review, hfind, hdel]

/-- Witness: the deleted-review guard fires for an admin, for the
review's author and for an unrelated regular user alike. -/
theorem update_review_deleted_guard_witness :
    update_review dbDeletedReview 1 ⟨some 4, none⟩ adminUser =
      (.error deletedReviewBadRequest, dbDeletedReview) ∧
    update_review dbDeletedReview 1 ⟨some 4, none⟩ regUser =
      (.error deletedReviewBadRequest, dbDeletedReview) ∧
    update_review dbDeletedReview 1 ⟨some 4, none⟩ otherUser =
      (.error deletedReviewBadRequest, dbDeletedReview) :=
  ⟨update_review_deleted_guard dbDeletedReview 1 ⟨some 4, none⟩ adminUser deletedReview
      (by decide) (by decide),
   update_review_deleted_guard dbDeletedReview 1 ⟨some 4, none⟩ regUser deletedReview
      (by decide) (by decide),
   update_review_deleted_guard dbDeletedReview 1 ⟨some 4, none⟩ otherUser deletedReview
      (by decide) (by decide)⟩

/-- Claim C8: `restore_review` rejects every non-admin actor with
Forbidden before touching the store, and for an admin and an existing
review it clears `deleted` while leaving `flagged`, `rating`,
`comment`, the author and the room unchanged (and the other tables
untouched). -/
theorem restore_review_spec (db : DB) (review_id : Nat) (u : User) :
    (u.role ≠ "admin" → restore_review db review_id u = (.error notEnoughPermissions, db)) ∧
    (u.role = "admin" → ∀ r, findReview db review_id = some r →
      (restore_review db review_id u).1 = .ok "Review restored" ∧
      (∃ r', findReview (restore_review db review_id u).2 review_id = some r' ∧
        r'.deleted = false ∧ r'.flagged = r.flagged ∧ r'.rating = r.rating ∧
        r'.comment = r.comment ∧ r'.user_id = r.user_id ∧ r'.room_id = r.room_id) ∧
      (restore_review db review_id u).2.bookings = db.bookings ∧
      (restore_review db review_id u).2.rooms = db.rooms ∧
      (restore_review db review_id u).2.users = db.users) := by
  constructor
  · intro h
    have hb : (u.role != "admin") = true := bne_iff_ne.mpr h
    simp [restore_review, hb]
  · intro h r hr
    have hb : (u.role != "admin") = false := by simp [h]
    refine ⟨by simp [restore_review, hb, hr], ?_, by simp [restore_review, hb, hr],
      by simp [restore_review, hb, hr], by simp [restore_review, hb, hr]⟩
    refine ⟨{ r with deleted := false }, ?_, rfl, rfl, rfl, rfl, rfl, rfl⟩
    have hrev : (restore_review db review_id u).2.reviews =
        updateFirst (fun x => x.id == review_id) (fun x => { x with deleted := false })
          db.reviews := by
      simp [restore_review, hb, hr]
    show ((restore_review db review_id u).2.reviews).find? (fun x => x.id == review_id) =
      some { r with deleted := false }
    rw [hrev, find?_updateFirst (fun x => x.id == review_id)
      (fun x => { x with deleted := false }) db.reviews (fun a => rfl)]
    have hfr : List.find? (fun x => x.id == review_id) db.reviews = some r := hr
    rw [hfr]
    rfl

/-- Witness: an unrelated regular user may not restore, while an admin
restoring the soft-deleted review clears only `deleted`. -/
theorem restore_review_spec_witness :
    restore_review dbDeletedReview 1 otherUser = (.error notEnoughPermissions, dbDeletedReview) ∧
    (restore_review dbDeletedReview 1 adminUser).1 = .ok "Review restored" ∧
    (∃ r', findReview (restore_review dbDeletedReview 1 adminUser).2 1 = some r' ∧
      r'.deleted = false ∧ r'.flagged = deletedReview.flagged ∧
      r'.rating = deletedReview.rating ∧ r'.comment = deletedReview.comment ∧
      r'.user_id = deletedReview.user_id ∧ r'.room_id = deletedReview.room_id) := by
  obtain ⟨h1, h2, -, -, -⟩ :=
    (restore_review_spec dbDeletedReview 1 adminUser).2 (by decide) deletedReview (by decide)
  exact ⟨(restore_review_spec dbDeletedReview 1 otherUser).1 (by decide), h1, h2⟩

/-- Claim C9: when the requested username and email are free,
`register_user` persists a user whose role is exactly the requested
role string; the endpoint has no current-user dependency, so nothing
stops an unauthenticated caller from requesting the admin role. -/
theorem register_user_role_spec (db : DB) (user_in : UserCreate) (hash : String → String)
    (nextId : Nat)
    (hfree : ∀ u ∈ db.users, u.username ≠ user_in.username ∧ u.email ≠ user_in.email) :
    ∃ nu : User,
      register_user db user_in hash nextId = (.ok nu, { db with users := db.users ++ [nu] }) ∧
      nu.role = user_in.role ∧ nu.username = user_in.username ∧
      nu.email = user_in.email ∧ nu.id = nextId := by
  have hnone : db.users.find?
      (fun u => u.username == user_in.username || u.email == user_in.email) = none := by
    rw [List.find?_eq_none]
    intro u hu
    simp [(hfree u hu).1, (hfree u hu).2]
  refine ⟨⟨nextId, user_in.name, user_in.username, user_in.email,
    hash user_in.password, user_in.role⟩, ?_, rfl, rfl, rfl, rfl⟩
  simp [register_user, hnone]

/-- Witness: on a store already holding one user, a fresh registration
requesting the role string admin succeeds and stores that role. -/
theorem register_user_role_spec_witness :
    ∃ nu : User,
      register_user dbNoRooms ⟨"Eve", "eve", "eve@example.com", "admin", "pw"⟩ (fun s => s) 9 =
        (.ok nu, { dbNoRooms with users := dbNoRooms.users ++ [nu] }) ∧
      nu.role = "admin" := by
  obtain ⟨nu, h1, h2, -, -, -⟩ :=
    register_user_role_spec dbNoRooms ⟨"Eve", "eve", "eve@example.com", "admin", "pw"⟩
      (fun s => s) 9 (by decide)
  exact ⟨nu, h1, by rw [h2]⟩

/-- Claim C10: for an existing room, `check_room_availability` reports
available exactly when no existing booking of that room overlaps the
requested interval; the result depends only on room existence and on
the bookings table, so the room's administrative `is_available` flag
has no effect. -/
theorem check_room_availability_schedule_only (db : DB) (room_id : Nat) (s e : Int) :
    (∀ room, findRoom db room_id = some room →
      ∃ avail : Bool, check_room_availability db room_id s e = .ok avail ∧
        (avail = true ↔ ∀ b ∈ db.bookings, b.room_id = room_id →
          overlaps s e b.start_time b.end_time = false)) ∧
    (∀ db' : DB, db'.bookings = db.bookings →
      (findRoom db' room_id).isSome = (findRoom db room_id).isSome →
      check_room_availability db' room_id s e = check_room_availability db room_id s e) := by
  constructor
  · intro room hroom
    by_cases hany : (db.bookings.filter (fun b => b.room_id == room_id)).any
        (fun b => overlaps s e b.start_time b.end_time) = true
    · refine ⟨false, by simp [check_room_availability, hroom, hany], ?_⟩
      simp only [Bool.false_eq_true, false_iff]
      intro hall
      rcases List.any_eq_true.mp hany with ⟨b, hbmem, hov⟩
      rcases List.mem_filter.mp hbmem with ⟨hb, hroomeq⟩
      have := hall b hb (by simpa using hroomeq)
      simp [this] at hov
    · have hanyf : (db.bookings.filter (fun b => b.room_id == room_id)).any
          (fun b => overlaps s e b.start_time b.end_time) = false :=
        Bool.not_eq_true _ ▸ eq_false_of_ne_true hany
      refine ⟨true, by simp [check_room_availability, hroom, hanyf], ?_⟩
      simp only [true_iff]
      intro b hb hroomeq
      have := List.any_eq_false.mp hanyf b (List.mem_filter.mpr ⟨hb, by simp [hroomeq]⟩)
      simpa using this
  · intro db' hbooks hsome
    cases hfd : findRoom db room_id with
    | none =>
      have hfd' : findRoom db' room_id = none := by
        cases hx : findRoom db' room_id with
        | none => rfl
        | some r => rw [hx, hfd] at hsome; simp at hsome
      simp [check_room_availability, hfd, hfd']
    | some r =>
      obtain ⟨r', hr'⟩ : ∃ r', findRoom db' room_id = some r' := by
        cases hx : findRoom db' room_id with
        | none => rw [hx, hfd] at hsome; simp at hsome
        | some rr => exact ⟨rr, rfl⟩
      simp [check_room_availability, hfd, hr', hbooks]

/-- Witness: a room whose administrative flag `is_available` is false
but whose schedule is empty is still reported available. -/
theorem check_room_availability_schedule_only_witness :
    (⟨7, "Closed Room", 4, none, "HQ", false⟩ : Room).is_available = false ∧
    ∃ avail : Bool,
      check_room_availability ⟨[], [⟨7, "Closed Room", 4, none, "HQ", false⟩], [], []⟩ 7 0 60 =
        .ok avail ∧ avail = true := by
  obtain ⟨avail, h1, h2⟩ :=
    (check_room_availability_schedule_only
        ⟨[], [⟨7, "Closed Room", 4, none, "HQ", false⟩], [], []⟩ 7 0 60).1
      ⟨7, "Closed Room", 4, none, "HQ", false⟩ (by decide)
  exact ⟨rfl, avail, h1, h2.mpr (by simp)⟩

end RoomBooking
